import Mathlib

/-!
Verification of the AstroAura blog automation's index/feed synchronization
subsystem: a shallow embedding of the Python sources in `automation/` and
`blog/`, with theorems settling the specification's testable properties.

Strings are modelled by Lean `String` over their ASCII fragment: Python's
`str.lower`, `\w`, `\s` and `str.strip` are embedded with their ASCII
semantics (the repository's titles, slugs and URLs are ASCII).
-/

namespace AstroAura

/-- A post record as serialized into `posts_index.json` (the fields written by
every index writer: `blog/generate_blog_post.py extract_metadata_from_html`,
`automation/blog_generator.py update_blog_index`,
`automation/authentic_blog_generator.py update_blog_index`). -/
structure Post where
  title : String
  slug : String
  date : String
  meta_description : String
  keywords : List String
  author : String
deriving DecidableEq, Repr

/-! ## Index writers -/

/-- Helper for `add_post_to_index`: Python's
`next((p for p in posts if p["slug"] == slug), None)` followed by
`existing_post.update(post_metadata)` updates the FIRST record whose slug
matches, in place; with a full record the dict update replaces every field. -/
def replaceFirst (p : Post) : List Post → List Post
  | [] => []
  | q :: rest => if q.slug == p.slug then p :: rest else q :: replaceFirst p rest

/-- `blog/generate_blog_post.py add_post_to_index`: if a record with the same
slug exists, update it in place (position preserved); else insert at index 0.
No truncation is applied on this path. -/
def add_post_to_index (index : List Post) (p : Post) : List Post :=
  if index.any (fun q => q.slug == p.slug) then replaceFirst p index
  else p :: index

/-- `automation/blog_generator.py update_blog_index`: unconditionally
`insert(0, post_entry)` then `posts[:100]`. -/
def update_blog_index_100 (index : List Post) (p : Post) : List Post :=
  (p :: index).take 100

/-- `automation/authentic_blog_generator.py update_blog_index`: unconditionally
`insert(0, post_entry)` then `posts[:50]`. -/
def update_blog_index_50 (index : List Post) (p : Post) : List Post :=
  (p :: index).take 50

/-- Folding an index writer over a sequence of posts (each generation run
inserts one record; a sequence of runs folds left over the insertion order). -/
def insertAll (writer : List Post → Post → List Post)
    (index : List Post) (ps : List Post) : List Post :=
  ps.foldl writer index

/-! ## Lemmas about the index writers -/

lemma replaceFirst_any_slug (p : Post) (l : List Post) :
    (replaceFirst p l).any (fun q => q.slug == p.slug)
      = l.any (fun q => q.slug == p.slug) := by
  induction l with
  | nil => rfl
  | cons q rest ih =>
    by_cases h : q.slug == p.slug
    · simp [replaceFirst, h]
    · simp [replaceFirst, h, ih]

lemma replaceFirst_idem (p : Post) (l : List Post) :
    replaceFirst p (replaceFirst p l) = replaceFirst p l := by
  induction l with
  | nil => rfl
  | cons q rest ih =>
    by_cases h : q.slug == p.slug
    · simp [replaceFirst, h]
    · simp [replaceFirst, h, ih]

lemma replaceFirst_map_slug (p : Post) (l : List Post) :
    (replaceFirst p l).map Post.slug = l.map Post.slug := by
  induction l with
  | nil => rfl
  | cons q rest ih =>
    by_cases h : q.slug == p.slug
    · have hq : q.slug = p.slug := by simpa using h
      simp [replaceFirst, h, hq]
    · simp [replaceFirst, h, ih]

/-- C1: `add_post_to_index` is an idempotent slug-based upsert: a second call
with the same record is the identity, and when the slug is already present the
slug sequence (hence every record's position) is unchanged; when it is absent
the record is prepended. -/
theorem add_post_to_index_upsert_idempotent (index : List Post) (p : Post) :
    add_post_to_index (add_post_to_index index p) p = add_post_to_index index p ∧
    (add_post_to_index index p).map Post.slug
      = (if index.any (fun q => q.slug == p.slug) then index.map Post.slug
         else p.slug :: index.map Post.slug) := by
  by_cases h : index.any (fun q => q.slug == p.slug)
  · constructor
    · simp [add_post_to_index, h, replaceFirst_any_slug, replaceFirst_idem]
    · simp [add_post_to_index, h, replaceFirst_map_slug]
  · constructor
    · simp [add_post_to_index, h, replaceFirst]
    · simp [add_post_to_index, h]

/-- A concrete post record used in counterexamples. -/
def samplePost (slug : String) : Post :=
  { title := "t", slug := slug, date := "2025-01-01T00:00:00",
    meta_description := "m", keywords := [], author := "AstroAura AI Cosmic Team" }

/-- C1 counterexample: the claim's cited
`authentic_blog_generator.py update_blog_index` is NOT a slug-based upsert:
applied twice with the identical record to an empty index it prepends twice,
so the index has length 2 where the claim demands the length of a single
application (1). -/
theorem authentic_update_blog_index_not_upsert :
    (update_blog_index_50 (update_blog_index_50 [] (samplePost "s"))
        (samplePost "s")).length = 2 ∧
    (update_blog_index_50 [] (samplePost "s")).length = 1 := by
  constructor <;> rfl

lemma take_append_take (n : Nat) (a b : List Post) :
    (a ++ b.take n).take n = (a ++ b).take n := by
  rw [List.take_append_eq_append_take, List.take_append_eq_append_take,
    List.take_take, Nat.min_eq_left (Nat.sub_le n a.length)]

lemma foldl_prepend_take (cap : Nat) (ps idx : List Post) (h : idx.length ≤ cap) :
    ps.foldl (fun idx p => (p :: idx).take cap) idx
      = ((ps.reverse ++ idx).take cap) := by
  induction ps generalizing idx with
  | nil => simp [List.take_of_length_le h]
  | cons p rest ih =>
    have hlen : ((p :: idx).take cap).length ≤ cap :=
      List.length_take_le cap (p :: idx)
    rw [List.foldl_cons, ih _ hlen, take_append_take]
    simp [List.append_assoc]

lemma insertAll_update_100 (ps : List Post) :
    insertAll update_blog_index_100 [] ps = ps.reverse.take 100 := by
  simpa [insertAll, update_blog_index_100] using
    foldl_prepend_take 100 ps [] (by simp)

lemma insertAll_update_50 (ps : List Post) :
    insertAll update_blog_index_50 [] ps = ps.reverse.take 50 := by
  simpa [insertAll, update_blog_index_50] using
    foldl_prepend_take 50 ps [] (by simp)

/-- C2 (amended): the two capped index writers keep exactly the
`min (number inserted) cap` most recently inserted posts, newest first, the
oldest evicted from the tail — `ps.reverse.take cap` is the last `cap`
insertions in reverse insertion order. This holds for every insertion
sequence (distinctness of slugs is not even needed: these writers prepend
unconditionally). The cited `add_post_to_index` path applies no cap
(see the counterexample). -/
theorem capped_index_bounded_growth (ps : List Post) :
    insertAll update_blog_index_50 [] ps = ps.reverse.take 50 ∧
    (insertAll update_blog_index_50 [] ps).length = min ps.length 50 ∧
    insertAll update_blog_index_100 [] ps = ps.reverse.take 100 ∧
    (insertAll update_blog_index_100 [] ps).length = min ps.length 100 := by
  refine ⟨insertAll_update_50 ps, ?_, insertAll_update_100 ps, ?_⟩
  · simp [insertAll_update_50 ps, Nat.min_comm]
  · simp [insertAll_update_100 ps, Nat.min_comm]

set_option maxRecDepth 40000

/-- 101 posts with pairwise distinct slugs `"0"`, …, `"100"`. -/
def posts101 : List Post := (List.range 101).map (fun n => samplePost (toString n))

/-- C2 counterexample: inserting `cap + k` distinct posts through the cited
`blog/generate_blog_post.py add_post_to_index` leaves the index at length
101 — not at the configured cap (50 or 100): this writer never truncates. -/
theorem add_post_to_index_unbounded :
    (posts101.map Post.slug).Nodup ∧
    posts101.length = 101 ∧
    (insertAll add_post_to_index [] posts101).length = 101 ∧
    ¬ ((insertAll add_post_to_index [] posts101).length = 50 ∨
       (insertAll add_post_to_index [] posts101).length = 100) := by
  refine ⟨by decide, by decide, by decide, by decide⟩

/-! ## Feed generators (`automation/rss_generator.py`)

Each generator loads the posts index, slices it with `[:max_posts]`
(`max_posts = 50` in the class config) and renders one item per post in index
order. Date formatting (`datetime.fromisoformat` + `strftime`/`isoformat`)
is abstracted as a string-to-string parameter; the claims here do not depend
on it. -/

def site_url : String := "https://astroaura.me"

def blog_url : String := "https://astroaura.me/blog"

def feed_author : String := "AstroAura AI Cosmic Team"

def feed_email : String := "cosmic@astroaura.me"

def max_posts : Nat := 50

/-- The item/entry URL built by all three generators:
`f"{blog_url}/posts/{post.get('slug','')}.html"`. -/
def postLink (p : Post) : String := blog_url ++ "/posts/" ++ p.slug ++ ".html"

/-- One `<item>` of the RSS 2.0 channel. -/
structure RssItem where
  title : String
  link : String
  description : String
  author : String
  pubDate : String
  guid : String
  categories : List String
deriving DecidableEq

/-- One `<entry>` of the Atom 1.0 feed. -/
structure AtomEntry where
  title : String
  link : String
  id : String
  published : String
  updated : String
  summary : String
  authorName : String
  categories : List String
deriving DecidableEq

/-- One element of the JSON Feed's `items[]`. -/
structure JsonItem where
  id : String
  url : String
  title : String
  summary : String
  date_published : String
  date_modified : String
  authorName : String
  tags : List String
deriving DecidableEq

/-- `generate_rss_feed`: `posts = load_posts_index()[:max_posts]`, then one
item per post with link and guid from the slug, keywords truncated to 5. -/
def generate_rss_feed (rssDate : String → String) (posts : List Post) :
    List RssItem :=
  (posts.take max_posts).map (fun p =>
    { title := p.title
      link := postLink p
      description := p.meta_description
      author := feed_email ++ " (" ++ p.author ++ ")"
      pubDate := rssDate p.date
      guid := postLink p
      categories := p.keywords.take 5 })

/-- `generate_atom_feed`: same slicing, one entry per post. -/
def generate_atom_feed (isoDate : String → String) (posts : List Post) :
    List AtomEntry :=
  (posts.take max_posts).map (fun p =>
    { title := p.title
      link := postLink p
      id := postLink p
      published := isoDate p.date
      updated := isoDate p.date
      summary := p.meta_description
      authorName := p.author
      categories := p.keywords.take 5 })

/-- `generate_json_feed`: same slicing, one `items[]` element per post. -/
def generate_json_feed (isoDate : String → String) (posts : List Post) :
    List JsonItem :=
  (posts.take max_posts).map (fun p =>
    { id := postLink p
      url := postLink p
      title := p.title
      summary := p.meta_description
      date_published := isoDate p.date
      date_modified := isoDate p.date
      authorName := p.author
      tags := p.keywords.take 5 })

/-- C3 (amended): after one synchronization call the three derived feeds
reference the same URL sequence — the first `min (index length) 50` post URLs
of the index, in index (newest-first) order. Equality with the full index
URL set therefore holds exactly when the index holds at most 50 posts; an
index longer than 50 (the `update_blog_index` writer caps it at 100) yields
feeds missing the index tail (see the counterexample). -/
theorem feeds_agree_with_index_prefix (rssDate atomDate jsonDate : String → String)
    (posts : List Post) :
    (generate_rss_feed rssDate posts).map RssItem.link
        = (posts.map postLink).take 50 ∧
    (generate_atom_feed atomDate posts).map AtomEntry.link
        = (posts.map postLink).take 50 ∧
    (generate_json_feed jsonDate posts).map JsonItem.url
        = (posts.map postLink).take 50 := by
  refine ⟨?_, ?_, ?_⟩ <;>
    simp [generate_rss_feed, generate_atom_feed, generate_json_feed,
      max_posts, List.map_take, Function.comp_def]

/-- 51 posts with pairwise distinct slugs `"0"`, …, `"50"`, newest first. -/
def posts51 : List Post := (List.range 51).map (fun n => samplePost (toString n))

/-- C3 counterexample: with 51 posts in the index (which one index-writer
path, capped at 100, permits), the oldest post's URL is in the index but in
none of the three feeds: the feeds do not reference exactly the set of slugs
of `posts_index.json`. -/
theorem feeds_miss_index_tail_beyond_50 :
    postLink (samplePost "50") ∈ posts51.map postLink ∧
    postLink (samplePost "50") ∉
      (generate_rss_feed (fun d => d) posts51).map RssItem.link ∧
    postLink (samplePost "50") ∉
      (generate_atom_feed (fun d => d) posts51).map AtomEntry.link ∧
    postLink (samplePost "50") ∉
      (generate_json_feed (fun d => d) posts51).map JsonItem.url := by
  refine ⟨by decide, by decide, by decide, by decide⟩

/-- C10: every feed generator slices the loaded index to `max_posts = 50`
entries before rendering, so each feed holds `min (index length) 50 ≤ 50`
items even when the index holds more entries — and the
`blog_generator.py update_blog_index` writer path lets the index grow to 100
entries. -/
theorem feeds_capped_at_50 (rssDate atomDate jsonDate : String → String)
    (posts : List Post) :
    (generate_rss_feed rssDate posts).length = min posts.length 50 ∧
    (generate_atom_feed atomDate posts).length = min posts.length 50 ∧
    (generate_json_feed jsonDate posts).length = min posts.length 50 ∧
    (generate_rss_feed rssDate posts).length ≤ 50 ∧
    (generate_atom_feed atomDate posts).length ≤ 50 ∧
    (generate_json_feed jsonDate posts).length ≤ 50 ∧
    (insertAll update_blog_index_100 [] posts).length = min posts.length 100 := by
  refine ⟨?_, ?_, ?_, ?_, ?_, ?_, ?_⟩ <;>
    simp [generate_rss_feed, generate_atom_feed, generate_json_feed,
      max_posts, Nat.min_comm, insertAll_update_100,
      Nat.min_le_right posts.length 50]

/-! ## Error handling of the synchronization calls

`rss_generator.py generate_all_feeds` runs generate-RSS / save, generate-Atom
/ save, generate-JSON / save sequentially inside ONE `try ... except`: an
exception at any step (unparseable index on read, bad date, I/O error) jumps
to the handler, which prints a diagnostic and returns `[]`. Files written
before the failing step stay written (no rollback). Fallible steps are
embedded as `Except`; the on-disk feed files as `Option`-valued fields. -/

/-- On-disk state of the three feed files maintained by `generate_all_feeds`. -/
structure FeedFiles where
  rss : Option (List RssItem)
  atom : Option (List AtomEntry)
  json : Option (List JsonItem)
deriving DecidableEq

/-- `generate_all_feeds`: the single try/except around all three feeds. The
returned list is the `results` value (feed names written in this call). -/
def generate_all_feeds (genRss : Except String (List RssItem))
    (genAtom : Except String (List AtomEntry))
    (genJson : Except String (List JsonItem))
    (fs : FeedFiles) : FeedFiles × List String :=
  match genRss with
  | .error _ => (fs, [])
  | .ok r =>
    let fs1 : FeedFiles := { fs with rss := some r }
    match genAtom with
    | .error _ => (fs1, [])
    | .ok a =>
      let fs2 : FeedFiles := { fs1 with atom := some a }
      match genJson with
      | .error _ => (fs2, [])
      | .ok j => ({ fs2 with json := some j }, ["RSS", "Atom", "JSON"])

/-- On-disk state touched by `blog/generate_blog_post.py register_new_post`:
the sitemap document and the RSS file, each updated in its own try/except. -/
structure RegisterFiles where
  sitemap : Option String
  rss : Option String
deriving DecidableEq

/-- `register_new_post`'s artifact updates: `update_sitemap` and `update_rss`
each catch their own exceptions (`except Exception as e: print(...)`), so a
failure in one leaves the other's update untouched. -/
def register_updates (sitemapStep : Except String String)
    (rssStep : Except String String) (st : RegisterFiles) : RegisterFiles :=
  let st1 : RegisterFiles :=
    match sitemapStep with
    | .error _ => st
    | .ok v => { st with sitemap := some v }
  match rssStep with
  | .error _ => st1
  | .ok w => { st1 with rss := some w }

/-- C4 (amended): failure isolation is per call-site, not uniformly per
artifact. In `register_new_post`, sitemap and RSS failures are each caught
independently: the failing artifact is skipped and the other still updates.
In `generate_all_feeds`, one handler wraps all three feeds: a failure while
producing the Atom feed keeps the already-written RSS file (no rollback) but
also skips the JSON feed, and a failure on the first (RSS) step skips all
three. -/
theorem feed_failure_handling_per_call
    (r : List RssItem) (a : List AtomEntry) (j : List JsonItem)
    (e : String) (fs : FeedFiles) (v w : String) (st : RegisterFiles) :
    register_updates (.error e) (.ok w) st = { st with rss := some w } ∧
    register_updates (.ok v) (.error e) st = { st with sitemap := some v } ∧
    generate_all_feeds (.ok r) (.error e) (.ok j) fs
      = ({ fs with rss := some r }, []) ∧
    generate_all_feeds (.error e) (.ok a) (.ok j) fs = (fs, []) ∧
    generate_all_feeds (.ok r) (.ok a) (.ok j) fs
      = ({ rss := some r, atom := some a, json := some j },
         ["RSS", "Atom", "JSON"]) := by
  refine ⟨rfl, rfl, rfl, rfl, rfl⟩

/-- C4 counterexample: starting from empty feed files, when only the Atom
step fails, the JSON feed — whose own regeneration succeeds — is NOT updated
in that call, contradicting the claim that only the failing artifact's update
is skipped while the other derived artifacts still update. -/
theorem generate_all_feeds_not_per_artifact :
    (generate_all_feeds (.ok []) (.error "parse error") (.ok [])
        { rss := none, atom := none, json := none }).1.json = none ∧
    (generate_all_feeds (.ok []) (.ok []) (.ok [])
        { rss := none, atom := none, json := none }).1.json = some [] := by
  exact ⟨rfl, rfl⟩

/-! ## Sitemap append (`automation/enhanced_blog_generator.py update_sitemap`)

For each post URL the code checks `if url not in content:` and, when absent,
inserts the `<url>` entry by replacing `</urlset>` with the entry followed by
`</urlset>`. The sitemap document is modelled by the sequence of post URLs
textually present in it: the containment test is membership in that sequence
and insertion immediately before the closing tag appends to it. -/

/-- `f"https://astroaura.me/blog/posts/{post['slug']}.html"`. -/
def sitemapUrl (p : Post) : String := site_url ++ "/blog/posts/" ++ p.slug ++ ".html"

/-- `update_sitemap(posts)` over the modelled document. -/
def update_sitemap (content : List String) (posts : List Post) : List String :=
  posts.foldl (fun c p =>
    if sitemapUrl p ∈ c then c else c ++ [sitemapUrl p]) content

lemma update_sitemap_nil (c : List String) : update_sitemap c [] = c := rfl

lemma update_sitemap_cons (c : List String) (q : Post) (rest : List Post) :
    update_sitemap c (q :: rest)
      = update_sitemap (if sitemapUrl q ∈ c then c else c ++ [sitemapUrl q]) rest := rfl

lemma mem_update_sitemap_of_mem {x : String} {c : List String} (ps : List Post)
    (h : x ∈ c) : x ∈ update_sitemap c ps := by
  induction ps generalizing c with
  | nil => exact h
  | cons p rest ih =>
    rw [update_sitemap_cons]
    by_cases hp : sitemapUrl p ∈ c
    · simpa [hp] using ih h
    · simp only [hp, if_neg, if_false]
      exact ih (by simp [h])

lemma url_mem_update_sitemap {p : Post} {ps : List Post} (c : List String)
    (h : p ∈ ps) : sitemapUrl p ∈ update_sitemap c ps := by
  induction ps generalizing c with
  | nil => cases h
  | cons q rest ih =>
    rw [update_sitemap_cons]
    rcases List.mem_cons.mp h with rfl | hmem
    · by_cases hq : sitemapUrl p ∈ c
      · simpa [hq] using mem_update_sitemap_of_mem rest hq
      · simp only [hq, if_false]
        exact mem_update_sitemap_of_mem rest (by simp)
    · by_cases hq : sitemapUrl q ∈ c
      · simpa [hq] using ih c hmem
      · simp only [hq, if_false]
        exact ih _ hmem

lemma update_sitemap_of_all_mem {c : List String} {ps : List Post}
    (h : ∀ p ∈ ps, sitemapUrl p ∈ c) : update_sitemap c ps = c := by
  induction ps with
  | nil => rfl
  | cons p rest ih =>
    rw [update_sitemap_cons]
    have hp : sitemapUrl p ∈ c := h p (by simp)
    simpa [hp] using ih (fun q hq => h q (by simp [hq]))

lemma nodup_update_sitemap {c : List String} (ps : List Post)
    (h : c.Nodup) : (update_sitemap c ps).Nodup := by
  induction ps generalizing c with
  | nil => exact h
  | cons p rest ih =>
    rw [update_sitemap_cons]
    by_cases hp : sitemapUrl p ∈ c
    · simpa [hp] using ih h
    · simp only [hp, if_false]
      refine ih ?_
      simp [List.nodup_append, h, hp]

/-- C7: sitemap append is idempotent. A second `update_sitemap` call with the
same post list is the identity; a duplicate-free document stays
duplicate-free (so each distinct post URL keeps exactly one `<url>` entry);
and every post of the list has its URL present after the call. -/
theorem update_sitemap_idempotent (c : List String) (ps : List Post) :
    update_sitemap (update_sitemap c ps) ps = update_sitemap c ps ∧
    (c.Nodup → (update_sitemap c ps).Nodup) ∧
    (∀ p ∈ ps, sitemapUrl p ∈ update_sitemap c ps) := by
  refine ⟨?_, fun h => nodup_update_sitemap ps h, fun p hp => url_mem_update_sitemap c hp⟩
  exact update_sitemap_of_all_mem (fun p hp => url_mem_update_sitemap c hp)

/-- Witness for C7 at a concrete document and post list. -/
theorem update_sitemap_idempotent_witness :
    update_sitemap (update_sitemap [] [samplePost "w"]) [samplePost "w"]
        = update_sitemap [] [samplePost "w"] ∧
    (update_sitemap [] [samplePost "w"]).Nodup ∧
    sitemapUrl (samplePost "w") ∈ update_sitemap [] [samplePost "w"] := by
  have h := update_sitemap_idempotent [] [samplePost "w"]
  exact ⟨h.1, h.2.1 List.nodup_nil, h.2.2 (samplePost "w") (by simp)⟩

/-! ## Slug generation

`authentic_blog_generator.py _create_slug`:
`slug = re.sub(r'[^\w\s-]', '', title.lower())`,
`slug = re.sub(r'[-\s]+', '-', slug)`, `return slug.strip('-')[:50]`.
`trending_blog_generator.py generate_blog_post` builds its slug with the same
two substitutions but no `strip('-')`: `re.sub(r'[-\s]+', '-', slug)[:50]`.
Character classes are embedded with their ASCII semantics. -/

/-- Python `\s` (ASCII): space, tab, newline, carriage return, vertical tab,
form feed. -/
def pySpace (c : Char) : Bool :=
  c == ' ' || c == '\t' || c == '\n' || c == '\r' || c == '\x0b' || c == '\x0c'

/-- Python `\w` (ASCII fragment): letters, digits and underscore. -/
def pyWord (c : Char) : Bool := c.isAlphanum || c == '_'

/-- A character kept by `re.sub(r'[^\w\s-]', '', ...)`. -/
def keepChar (c : Char) : Bool := pyWord c || pySpace c || c == '-'

/-- A character matched by the run pattern `[-\s]+`. -/
def hyphenSpace (c : Char) : Bool := c == '-' || pySpace c

/-- `re.sub(r'[-\s]+', '-', s)`: every maximal run of hyphens/whitespace
becomes a single hyphen. -/
def collapseRuns : List Char → List Char
  | [] => []
  | c :: rest =>
    if hyphenSpace c then
      match rest with
      | [] => ['-']
      | d :: _ =>
        if hyphenSpace d then collapseRuns rest else '-' :: collapseRuns rest
    else c :: collapseRuns rest

/-- Python `str.strip('-')`: drop leading then trailing hyphens
(`List.rdropWhile p l` is `(l.reverse.dropWhile p).reverse`). -/
def stripHyphens (l : List Char) : List Char :=
  (l.dropWhile (· == '-')).rdropWhile (· == '-')

/-- `_create_slug` (authentic generator): lower, strip `[^\w\s-]`, collapse
`[-\s]+`, `strip('-')`, truncate to 50. -/
def create_slug (title : String) : String :=
  String.mk
    ((stripHyphens (collapseRuns ((title.data.map Char.toLower).filter keepChar))).take 50)

/-- The trending generator's slug: same substitutions, truncate to 50, no
`strip('-')`. -/
def trending_slug (title : String) : String :=
  String.mk ((collapseRuns ((title.data.map Char.toLower).filter keepChar)).take 50)

lemma head?_take_50 (l : List Char) : (l.take 50).head? = l.head? := by
  cases l <;> rfl

lemma head?_dropWhile {p : Char → Bool} {l : List Char} {c : Char}
    (h : (l.dropWhile p).head? = some c) : p c = false := by
  induction l with
  | nil => simp at h
  | cons a t ih =>
    by_cases ha : p a
    · exact ih (by simpa [List.dropWhile, ha] using h)
    · rw [List.dropWhile_cons_of_neg (by simpa using ha)] at h
      simp only [List.head?_cons, Option.some.injEq] at h
      simpa [← h] using ha

lemma stripHyphens_prefix (l : List Char) :
    stripHyphens l <+: l.dropWhile (· == '-') :=
  List.rdropWhile_prefix _ _

lemma head?_stripHyphens {l : List Char} {c : Char}
    (h : (stripHyphens l).head? = some c) : c ≠ '-' := by
  obtain ⟨t, ht⟩ := stripHyphens_prefix l
  have hhead : (l.dropWhile (· == '-')).head? = some c := by
    rw [← ht]
    cases hs : stripHyphens l with
    | nil => rw [hs] at h; simp at h
    | cons a r =>
      rw [hs] at h
      simp only [List.head?_cons, Option.some.injEq] at h
      simp [h]
  have := head?_dropWhile hhead
  simpa using this

/-- C5 (amended): slug generation is a deterministic function of the title:
lowercase, drop characters outside `\w`/`\s`/`-` (underscores and the rest of
`\w` are kept, unlike the claimed `[a-z0-9\s-]` class), collapse
whitespace/hyphen runs to single hyphens; the authentic generator then trims
leading/trailing hyphens BEFORE truncating to 50 (so truncation can leave a
trailing hyphen but never a leading one), while the trending generator
truncates to 50 without trimming at all. On the claim's example title both
produce `"mercury-retrograde-survival-guide"`. -/
theorem slug_generation_spec (t : String) :
    create_slug "Mercury Retrograde: Survival Guide!!"
        = "mercury-retrograde-survival-guide" ∧
    trending_slug "Mercury Retrograde: Survival Guide!!"
        = "mercury-retrograde-survival-guide" ∧
    (create_slug t).length ≤ 50 ∧
    (trending_slug t).length ≤ 50 ∧
    (create_slug t).data.head? ≠ some '-' := by
  refine ⟨by decide, by decide, ?_, ?_, ?_⟩
  · simp [create_slug, String.length]
  · simp [trending_slug, String.length]
  · intro h
    have : (stripHyphens
        (collapseRuns ((t.data.map Char.toLower).filter keepChar))).head?
          = some '-' := by
      simpa [create_slug, head?_take_50] using h
    exact head?_stripHyphens this rfl

/-- A 51-character title whose collapsed slug has a hyphen at index 49. -/
def longTitle : String := String.mk (List.replicate 49 'a') ++ " b"

/-- C5 counterexample: two concrete violations of the claim as stated. The
title `"Astro_Aura"` yields slug `"astro_aura"`, keeping the underscore the
claim says is stripped (outside `[a-z0-9\s-]`); and a 51-character title
(49 `a`s, a space, `b`) yields a slug of 49 `a`s followed by a trailing
hyphen, because `_create_slug` truncates AFTER trimming hyphens. -/
theorem slug_underscore_and_trailing_hyphen :
    create_slug "Astro_Aura" = "astro_aura" ∧
    '_' ∈ (create_slug "Astro_Aura").data ∧
    create_slug longTitle = String.mk (List.replicate 49 'a' ++ ['-']) ∧
    (create_slug longTitle).data.getLast? = some '-' := by
  refine ⟨by decide, by decide, by decide, by decide⟩

/-! ## Moon phase (`authentic_blog_generator.py get_current_astronomical_data`)

`days_since_new_moon = (now - datetime.datetime(2024, 1, 11)).days % 29.53`
(`.days` is an integer, `%` is Python's float modulo, nonnegative here), then
a threshold ladder assigns one of 8 phase names. Rationals stand in for the
floats (29.53 and all thresholds are exactly representable). -/

/-- Python's float `%` for a positive modulus: `x - y * floor(x / y)`. -/
def pymod (x y : ℚ) : ℚ := x - y * ⌊x / y⌋

/-- The synodic cycle length `29.53`. -/
def lunar_cycle : ℚ := 2953 / 100

/-- `deltaDays` is the integer day difference from the fixed reference date
2024-01-11. -/
def days_since_new_moon (deltaDays : ℤ) : ℚ := pymod deltaDays lunar_cycle

/-- The phase ladder: thresholds 1, 7, 8, 14, 16, 22, 23, else-branch. -/
def moon_phase (d : ℚ) : String :=
  if d < 1 then "New Moon"
  else if d < 7 then "Waxing Crescent"
  else if d < 8 then "First Quarter"
  else if d < 14 then "Waxing Gibbous"
  else if d < 16 then "Full Moon"
  else if d < 22 then "Waning Gibbous"
  else if d < 23 then "Last Quarter"
  else "Waning Crescent"

lemma pymod_nonneg (x : ℚ) {y : ℚ} (hy : 0 < y) : 0 ≤ pymod x y := by
  have h1 : (⌊x / y⌋ : ℚ) ≤ x / y := Int.floor_le _
  have hx : y * (x / y) = x := by field_simp
  have := mul_le_mul_of_nonneg_left h1 hy.le
  unfold pymod
  linarith

lemma pymod_lt (x : ℚ) {y : ℚ} (hy : 0 < y) : pymod x y < y := by
  have h2 : x / y < ⌊x / y⌋ + 1 := Int.lt_floor_add_one _
  have hx : y * (x / y) = x := by field_simp
  have := mul_lt_mul_of_pos_left h2 hy
  unfold pymod
  nlinarith

/-- C6: the moon-phase computation maps `days_since_reference` through the
fixed buckets with thresholds 1, 7, 8, 14, 16, 22, 23 and a remainder bucket
in the order New Moon, Waxing Crescent, First Quarter, Waxing Gibbous,
Full Moon, Waning Gibbous, Last Quarter, Waning Crescent; the value 0 yields
"New Moon", 15 yields "Full Moon", 29 yields "Waning Crescent", and for every
integer day difference the modulo lands in `[0, 29.53)`, so the ladder's
buckets partition the whole range. -/
theorem moon_phase_buckets (deltaDays : ℤ) :
    moon_phase 0 = "New Moon" ∧
    moon_phase 15 = "Full Moon" ∧
    moon_phase 29 = "Waning Crescent" ∧
    moon_phase 4 = "Waxing Crescent" ∧
    moon_phase (15 / 2) = "First Quarter" ∧
    moon_phase 10 = "Waxing Gibbous" ∧
    moon_phase 20 = "Waning Gibbous" ∧
    moon_phase (45 / 2) = "Last Quarter" ∧
    moon_phase 25 = "Waning Crescent" ∧
    0 ≤ days_since_new_moon deltaDays ∧
    days_since_new_moon deltaDays < lunar_cycle := by
  have hy : (0 : ℚ) < lunar_cycle := by norm_num [lunar_cycle]
  refine ⟨?_, ?_, ?_, ?_, ?_, ?_, ?_, ?_, ?_,
    pymod_nonneg _ hy, pymod_lt _ hy⟩ <;> norm_num [moon_phase]

/-! ## Trending topic aggregation (`trending_blog_generator.py get_trending_topics`)

The four trend adapters (`_fetch_google_trends`, `_fetch_google_trends_regions`,
`_fetch_related_queries`, `_fetch_wikipedia_trending`) each tolerate provider
failure by returning `[]`; their outputs are parameters here. The astrological
angle uses `random.choice`, abstracted as an oracle `angle topic category`. -/

/-- Python's substring test `pat in hay` on the underlying characters. -/
def hasSub (pat : String) : List Char → Bool
  | [] => pat.data.isEmpty
  | c :: rest => pat.data.isPrefixOf (c :: rest) || hasSub pat rest

/-- `pat in hay` for strings. -/
def strContains (hay pat : String) : Bool := hasSub pat hay.data

/-- Python `str.strip()` (ASCII whitespace). -/
def pyStrip (s : String) : String :=
  String.mk ((s.data.dropWhile pySpace).rdropWhile pySpace)

/-- Python `str.lower()` (ASCII fragment). -/
def pyLower (s : String) : String := String.mk (s.data.map Char.toLower)

/-- The `seen`-set dedup loop of `get_trending_topics`: strip each topic, skip
blanks, dedupe case-insensitively keeping the first occurrence's casing. -/
def normalize_unique (collected : List String) : List String :=
  (collected.foldl (fun (st : List String × List String) t =>
    let tl := pyStrip t
    if tl.isEmpty then st
    else if st.1.contains (pyLower tl) then st
    else (st.1 ++ [pyLower tl], st.2 ++ [tl])) ([], [])).2

/-- `re.match(r'^[A-Z][a-z]+ [A-Z][a-z]+$', topic)`: two capitalized words
separated by a single space (the personal-name heuristic). -/
def isCapWord (w : String) : Bool :=
  match w.data with
  | c :: rest => c.isUpper && !rest.isEmpty && rest.all Char.isLower
  | [] => false

def isNameLike (s : String) : Bool :=
  match s.splitOn " " with
  | [w1, w2] => isCapWord w1 && isCapWord w2
  | _ => false

/-- `_categorize`'s ordered keyword dictionary. -/
def category_mapping : List (String × List String) :=
  [("technology", ["ai", "tech", "app", "software", "robot", "digital"]),
   ("finance", ["stock", "market", "finance", "bank", "inflation", "econom"]),
   ("health", ["health", "virus", "disease", "wellness", "mental", "fitness"]),
   ("environment", ["climate", "earth", "sustain", "environment", "weather"]),
   ("entertainment", ["movie", "show", "music", "celebrity", "festival"]),
   ("sports", ["game", "team", "league", "tournament", "olympic"]),
   ("spiritual", ["astrology", "zodiac", "horoscope", "retrograde", "tarot",
      "manifest", "moon", "mercury", "compatibility", "numerology"])]

/-- `_categorize`: first category whose keyword list has a substring match in
the lowered topic; default `"culture"`. -/
def categorize (topic : String) : String :=
  let tl := pyLower topic
  match category_mapping.find? (fun cm => cm.2.any (fun k => strContains tl k)) with
  | some cm => cm.1
  | none => "culture"

/-- `[^a-z0-9]` on the lowered topic (for `_extract_keywords`). -/
def nonAlnumLower (c : Char) : Bool :=
  !(('a' ≤ c && c ≤ 'z') || ('0' ≤ c && c ≤ '9'))

/-- Generalized run-collapsing (`re.sub(r'<class>+', '-', s)`). -/
def collapseRunsBy (p : Char → Bool) : List Char → List Char
  | [] => []
  | c :: rest =>
    if p c then
      match rest with
      | [] => ['-']
      | d :: _ =>
        if p d then collapseRunsBy p rest else '-' :: collapseRunsBy p rest
    else c :: collapseRunsBy p rest

/-- `_extract_keywords`: `re.sub(r'[^a-z0-9]+', '-', topic.lower()).strip('-')`
split on `-`, empty parts dropped. -/
def extract_keywords (topic : String) : List String :=
  ((String.mk (stripHyphens
      (collapseRunsBy nonAlnumLower ((pyLower topic).data)))).splitOn "-").filter
    (fun k => !k.isEmpty)

/-- `_choose_image_for_topic`. -/
def choose_image (topic category : String) : String :=
  let tl := pyLower topic
  let assets := "https://astroaura.me/assets"
  if ["moon", "lunar"].any (fun k => strContains tl k) then
    assets ++ "/icons/moon_icon.png"
  else if ["mercury", "retrograde"].any (fun k => strContains tl k) then
    assets ++ "/icons/planets/mercury.png"
  else if ["zodiac", "aries", "leo", "libra", "virgo", "taurus", "gemini",
      "cancer", "scorpio", "sagittarius", "capricorn", "aquarius",
      "pisces"].any (fun k => strContains tl k) then
    assets ++ "/icons/zodiac/leo.png"
  else if ["tarot", "card"].any (fun k => strContains tl k) then
    assets ++ "/images/tarot/major/the_star.png"
  else if ["sun", "sol"].any (fun k => strContains tl k) then
    assets ++ "/icons/sun_icon.png"
  else if ["technology", "finance", "environment", "sports",
      "entertainment"].contains category then
    assets ++ "/images/backgrounds/cosmic_background.png"
  else assets ++ "/images/backgrounds/stars_background.png"

/-- A Topic Candidate as assembled by `get_trending_topics`. -/
structure TopicCandidate where
  topic : String
  category : String
  popularity_score : Int
  astro_angle : String
  keywords : List String
  image : String
deriving DecidableEq

/-- The hard-coded safe default returned when no topic survives. -/
def defaultTopic : TopicCandidate :=
  { topic := "Digital Detox Challenge"
    category := "wellness"
    popularity_score := 85
    astro_angle := "Mercury retrograde digital cleansing"
    keywords := ["digital", "detox", "mercury", "retrograde"]
    image := "https://astroaura.me/assets/images/backgrounds/cosmic_background.png" }

/-- `get_trending_topics`: flatten the four adapter outputs in order, strip
and dedupe case-insensitively, take the first 20, drop name-like topics,
format each survivor (`popularity_score = max(30, 100 - idx * 3)` over the
pre-filter enumeration), and fall back to the single hard-coded default when
nothing survives. -/
def get_trending_topics (angle : String → String → String)
    (googleTrends regionTrends relatedQueries wikiTrending : List String) :
    List TopicCandidate :=
  let collected := googleTrends ++ regionTrends ++ relatedQueries ++ wikiTrending
  let unique := normalize_unique collected
  let formatted := (unique.take 20).enum.filterMap (fun ie =>
    if isNameLike ie.2 then none
    else
      let category := categorize ie.2
      some { topic := ie.2
             category := category
             popularity_score := max 30 (100 - 3 * (ie.1 : Int))
             astro_angle := angle ie.2 category
             keywords := extract_keywords ie.2
             image := choose_image ie.2 category })
  if formatted.isEmpty then [defaultTopic] else formatted

/-- C9: when every trend adapter returns the empty list, `get_trending_topics`
returns exactly the one hard-coded safe default Topic Candidate, and for every
adapter output whatsoever the returned list is non-empty, so a generation call
never starts from zero topics. -/
lemma length_ite_default (l : List TopicCandidate) :
    1 ≤ (if l.isEmpty then [defaultTopic] else l).length := by
  by_cases h : l.isEmpty
  · simp [h]
  · have hne : l ≠ [] := by simpa [List.isEmpty_iff] using h
    simpa [h] using List.length_pos.mpr hne

theorem trending_topics_never_empty (angle : String → String → String)
    (a b c d : List String) :
    get_trending_topics angle [] [] [] [] = [defaultTopic] ∧
    1 ≤ (get_trending_topics angle a b c d).length :=
  ⟨rfl, length_ite_default _⟩

/-! ## Fallback content and meta descriptions

`authentic_blog_generator.py _generate_fallback_content` and
`free_api_content_generator.py _generate_enhanced_fallback_content` are the
template renderers used when every content-generation provider fails (API
error, non-200 response or missing credentials); both apply `content.strip()`
before returning. `free_api_content_generator.py _generate_meta_description`
is the meta-description builder of the AI-success path. The f-string
templates are embedded verbatim as literal segments (long ones chunked into
concatenations) interleaved with their interpolated expressions. -/

lemma rdropWhile_append_right (a b : List Char)
    (h : b.rdropWhile pySpace ≠ []) :
    (a ++ b).rdropWhile pySpace = a ++ b.rdropWhile pySpace := by
  unfold List.rdropWhile at h ⊢
  rw [List.reverse_append, List.dropWhile_append, if_neg]
  · rw [List.reverse_append, List.reverse_reverse]
  · simp only [List.isEmpty_iff]
    intro hnil
    exact h (by rw [hnil]; rfl)

/-- `str.strip()` over a concatenation whose first block keeps a character
after left-trimming and whose last block keeps one after right-trimming. -/
lemma pyStrip_append_append (A M B : String)
    (hA : A.data.dropWhile pySpace ≠ [])
    (hB : B.data.rdropWhile pySpace ≠ []) :
    (pyStrip (A ++ (M ++ B))).data
      = A.data.dropWhile pySpace ++ (M.data ++ B.data.rdropWhile pySpace) := by
  unfold pyStrip
  simp only [String.data_append]
  rw [List.dropWhile_append, if_neg (by simpa [List.isEmpty_iff] using hA)]
  rw [show A.data.dropWhile pySpace ++ (M.data ++ B.data)
      = (A.data.dropWhile pySpace ++ M.data) ++ B.data by simp [List.append_assoc]]
  rw [rdropWhile_append_right _ _ hB]
  simp [List.append_assoc]

lemma isInfix_append_left (a : List Char) {t l : List Char} (h : t <:+: l) :
    t <:+: a ++ l :=
  h.trans (List.suffix_append a l).isInfix

lemma isInfix_append_right {t l : List Char} (h : t <:+: l) (r : List Char) :
    t <:+: l ++ r :=
  h.trans (List.prefix_append l r).isInfix

/-- Template literal segment. -/
def fbA0 : String := "\n        <div class=\"blog-content authentic-astrology\">\n            <section class=\"cosmic-introduction\">\n                <h2>Understanding Today's Cosmic Energy</h2>\n                <p>Welcome to your authentic astrological guidance for "

/-- Template literal segment. -/
def fbA1 : String := ". As we navigate through "

/-- Template literal segment. -/
def fbA2 : String := " season with the "

/-- Template literal segment. -/
def fbA3a : String := " illuminating our path, the cosmos offers us profound insights for growth and transformation.</p>\n                \n"

/-- Template literal segment. -/
def fbA3b : String := "                <p>Today's celestial configuration presents unique opportunities for spiritual development and practical manifestation. Let's explore how these cosmic influences can guide your daily decisions and long-term aspirations.</p>\n            </section>\n            \n"

/-- Template literal segment. -/
def fbA3c : String := "            <section class=\"current-cosmic-weather\">\n                <h2>Current Cosmic Weather Report</h2>\n                <div class=\"cosmic-highlights\">\n                    <div class=\"cosmic-factor\">\n                        <h3>🌙 Moon Phase: "

/-- Template literal segment. -/
def fbA4 : String := "</h3>\n                        <p>The "

/-- Template literal segment. -/
def fbA5 : String := " energy is perfect for "

/-- Template literal segment. -/
def fbA6 : String := ". This lunar phase encourages you to "

/-- Template literal segment. -/
def fbA7 : String := ".</p>\n                    </div>\n                    \n                    <div class=\"cosmic-factor\">\n                        <h3>☀️ Sun in "

/-- Template literal segment. -/
def fbA8 : String := "</h3>\n                        <p>"

/-- Template literal segment. -/
def fbA9 : String := " season brings focus to "

/-- Template literal segment. -/
def fbA10 : String := ". This is an excellent time to align with "

/-- Template literal segment. -/
def fbA11 : String := " energy and embrace its gifts in your daily life.</p>\n                    </div>\n                    \n                    "

/-- Template literal segment. -/
def fbA12a : String := "\n                </div>\n            </section>\n            \n            <section class=\"practical-guidance\">\n                <h2>Practical Astrological Guidance for Today</h2>\n                <p>Here's how you can work with today's cosmic energy:</p>\n                \n"

/-- Template literal segment. -/
def fbA12b : String := "                <ol class=\"cosmic-action-steps\">\n                    <li><strong>Morning Intention Setting:</strong> Begin your day by acknowledging the "

/-- Template literal segment. -/
def fbA13 : String := " energy and setting intentions aligned with "

/-- Template literal segment. -/
def fbA14a : String := " themes.</li>\n                    <li><strong>Midday Energy Check:</strong> Use AstroAura's cosmic weather dashboard to see how current planetary transits affect your personal chart.</li>\n"

/-- Template literal segment. -/
def fbA14b : String := "                    <li><strong>Evening Reflection:</strong> Journal about how today's cosmic influences manifested in your experiences.</li>\n                    <li><strong>Weekly Planning:</strong> Consider how this "

/-- Template literal segment. -/
def fbA15a : String := " energy can guide your upcoming goals and decisions.</li>\n                </ol>\n            </section>\n            \n            <section class=\"astrological-wisdom\">\n                <h2>Ancient Wisdom for Modern Times</h2>\n"

/-- Template literal segment. -/
def fbA15b : String := "                <p>Astrology teaches us that we are intimately connected to the cosmic rhythms that govern our universe. Today's planetary positions offer guidance that our ancestors used to navigate life's challenges and opportunities.</p>\n                \n"

/-- Template literal segment. -/
def fbA15c : String := "                <p>The beauty of modern astrology lies in combining this ancient wisdom with contemporary insights. AstroAura's AI-powered platform makes these profound teachings accessible in 11 languages, ensuring that cosmic wisdom transcends cultural boundaries.</p>\n                \n"

/-- Template literal segment. -/
def fbA15d : String := "                <blockquote class=\"cosmic-quote\">\n                    \"As above, so below. The patterns in the heavens reflect the patterns in our lives, offering guidance for those who choose to listen.\"\n                </blockquote>\n            </section>\n            \n"

/-- Template literal segment. -/
def fbA15e : String := "            <section class=\"personalized-insights\">\n                <h2>Get Your Personalized Cosmic Guidance</h2>\n"

/-- Template literal segment. -/
def fbA15f : String := "                <p>While general astrological insights provide valuable guidance, your personal birth chart holds the key to truly understanding how these cosmic influences affect your unique path.</p>\n                \n                <div class=\"astroaura-features\">\n"

/-- Template literal segment. -/
def fbA15g : String := "                    <h3>🌟 Discover Your Cosmic Blueprint with AstroAura</h3>\n                    <ul class=\"feature-list\">\n                        <li><strong>Personalized Daily Guidance:</strong> Get insights tailored to your exact birth chart and current transits</li>\n"

/-- Template literal segment. -/
def fbA15h : String := "                        <li><strong>Multilingual Wisdom:</strong> Access authentic astrological guidance in your preferred language</li>\n                        <li><strong>AI-Enhanced Accuracy:</strong> Our advanced algorithms provide precise, relevant predictions</li>\n"

/-- Template literal segment. -/
def fbA15i : String := "                        <li><strong>Real-Time Cosmic Weather:</strong> Track how today's planetary movements affect your personal chart</li>\n                        <li><strong>Interactive Learning:</strong> Deepen your understanding of astrology through our educational features</li>\n"

/-- Template literal segment. -/
def fbA15j : String := "                    </ul>\n                </div>\n            </section>\n            \n            <section class=\"conclusion\">\n                <h2>Embracing Your Cosmic Journey</h2>\n"

/-- Template literal segment. -/
def fbA15k : String := "                <p>Today's cosmic configuration reminds us that we are co-creators with the universe, able to work consciously with celestial energies to manifest our highest potential. Whether you're new to astrology or a seasoned practitioner, these cosmic insights offer guidance for living in har"

/-- Template literal segment. -/
def fbA15l : String := "mony with universal rhythms.</p>\n                \n"

/-- Template literal segment. -/
def fbA15m : String := "                <p>Ready to dive deeper into your personal cosmic story? Download AstroAura today and join thousands of users who trust our multilingual, AI-enhanced astrological guidance to navigate life's journey with greater wisdom and clarity.</p>\n                \n"

/-- Template literal segment. -/
def fbA15n : String := "                <div class=\"cta-section\">\n                    <a href=\"https://apps.apple.com/us/app/astroaura-daily-ai-astrology/id6749437213\" class=\"download-btn ios-btn\">\n                        <i class=\"fab fa-apple\"></i> Download for iOS\n                    </a>\n"

/-- Template literal segment. -/
def fbA15o : String := "                    <a href=\"https://play.google.com/store/apps/details?id=com.astroaura.me\" class=\"download-btn android-btn\">\n                        <i class=\"fab fa-google-play\"></i> Download for Android\n                    </a>\n                </div>\n            </section>\n        </div>\n        "

/-- fbA0 with its leading whitespace removed by `strip()`. -/
def fbA0h : String := "<div class=\"blog-content authentic-astrology\">\n            <section class=\"cosmic-introduction\">\n                <h2>Understanding Today's Cosmic Energy</h2>\n                <p>Welcome to your authentic astrological guidance for "

/-- fbA15o with its trailing whitespace removed by `strip()`. -/
def fbA15ot : String := "                    <a href=\"https://play.google.com/store/apps/details?id=com.astroaura.me\" class=\"download-btn android-btn\">\n                        <i class=\"fab fa-google-play\"></i> Download for Android\n                    </a>\n                </div>\n            </section>\n        </div>"

/-- Template literal segment. -/
def fbE0 : String := "\n        <div class=\"blog-content enhanced-fallback\">\n            <section class=\"cosmic-introduction\">\n                <h2>üåü Understanding "

/-- Template literal segment. -/
def fbE1 : String := " in Today's Cosmic Climate</h2>\n                <p>Welcome to your personalized astrological guidance for "

/-- Template literal segment. -/
def fbE2 : String := ". As we navigate through "

/-- Template literal segment. -/
def fbE3 : String := " season with the "

/-- Template literal segment. -/
def fbE4a : String := " illuminating our spiritual path, the universe offers us profound insights for growth, transformation, and conscious living.</p>\n                \n"

/-- Template literal segment. -/
def fbE4b : String := "                <p>Today's celestial configuration presents unique opportunities for spiritual development and practical manifestation. Let's explore how these cosmic influences can guide your daily decisions and support your long-term aspirations.</p>\n            </section>\n            \n"

/-- Template literal segment. -/
def fbE4c : String := "            <section class=\"current-cosmic-weather\">\n                <h2>üåô Current Cosmic Weather Report</h2>\n                <div class=\"cosmic-highlights\">\n                    <div class=\"cosmic-factor\">\n                        <h3>Moon Phase: "

/-- Template literal segment. -/
def fbE5 : String := "</h3>\n                        <p>The "

/-- Template literal segment. -/
def fbE6 : String := " energy is perfect for "

/-- Template literal segment. -/
def fbE7 : String := ". This lunar phase encourages you to "

/-- Template literal segment. -/
def fbE8 : String := ".</p>\n                    </div>\n                    \n                    <div class=\"cosmic-factor\">\n                        <h3>‚òÄÔ∏è Sun in "

/-- Template literal segment. -/
def fbE9 : String := "</h3>\n                        <p>"

/-- Template literal segment. -/
def fbE10 : String := " season brings focus to "

/-- Template literal segment. -/
def fbE11 : String := ". This is an ideal time to align with "

/-- Template literal segment. -/
def fbE12 : String := " energy and integrate its transformative gifts into your daily spiritual practice.</p>\n                    </div>\n                    \n                    "

/-- Template literal segment. -/
def fbE13a : String := "\n                </div>\n            </section>\n            \n            <section class=\"practical-cosmic-guidance\">\n                <h2>üîÆ Practical Cosmic Guidance for Today</h2>\n"

/-- Template literal segment. -/
def fbE13b : String := "                <p>Here's how you can consciously work with today's cosmic energy to enhance your spiritual journey and daily life:</p>\n                \n                <ol class=\"cosmic-action-steps\">\n"

/-- Template literal segment. -/
def fbE13c : String := "                    <li><strong>Morning Cosmic Attunement:</strong> Begin your day by acknowledging the "

/-- Template literal segment. -/
def fbE14 : String := " energy and setting clear intentions aligned with "

/-- Template literal segment. -/
def fbE15a : String := " themes of growth and transformation.</li>\n                    <li><strong>Midday Energy Check:</strong> Use AstroAura's advanced cosmic weather dashboard to see how current planetary transits specifically affect your unique birth chart and personal cosmic blueprint.</li>\n"

/-- Template literal segment. -/
def fbE15b : String := "                    <li><strong>Evening Cosmic Reflection:</strong> Journal about how today's cosmic influences manifested in your experiences, relationships, and inner growth journey.</li>\n                    <li><strong>Weekly Cosmic Planning:</strong> Consider how this "

/-- Template literal segment. -/
def fbE16a : String := " energy can guide your upcoming goals, creative projects, and spiritual development practices.</li>\n                    <li><strong>Monthly Cosmic Integration:</strong> Look for patterns in how these cosmic cycles support your personal evolution and life purpose unfolding.</li>\n"

/-- Template literal segment. -/
def fbE16b : String := "                </ol>\n            </section>\n            \n            <section class=\"deep-astrological-wisdom\">\n                <h2>üåå Ancient Wisdom for Modern Cosmic Living</h2>\n"

/-- Template literal segment. -/
def fbE16c : String := "                <p>Astrology teaches us that we are intimately connected to the cosmic rhythms that govern our universe. Today's planetary positions offer guidance that our ancestors used to navigate life's challenges, celebrate opportunities, and align with natural cycles of growth and renewal.</p>"

/-- Template literal segment. -/
def fbE16d : String := "\n                \n"

/-- Template literal segment. -/
def fbE16e : String := "                <p>The beauty of modern astrology lies in combining this timeless wisdom with contemporary insights and accessible technology. AstroAura's AI-powered platform makes these profound teachings available in 11 languages, ensuring that cosmic wisdom transcends cultural boundaries and spea"

/-- Template literal segment. -/
def fbE16f : String := "ks to every soul seeking guidance.</p>\n                \n                <blockquote class=\"cosmic-wisdom-quote\">\n"

/-- Template literal segment. -/
def fbE16g : String := "                    \"As above, so below. As within, so without. The patterns in the heavens reflect the patterns in our lives, offering guidance, healing, and transformation for those who choose to listen with an open heart.\"\n                </blockquote>\n                \n"

/-- Template literal segment. -/
def fbE16h : String := "                <p>In our fast-paced modern world, astrology serves as a bridge between the ancient and the contemporary, helping us remember our place in the cosmic order while navigating the complexities of 21st-century life.</p>\n            </section>\n            \n"

/-- Template literal segment. -/
def fbE16i : String := "            <section class=\"personalized-cosmic-insights\">\n                <h2>‚ú® Unlock Your Personal Cosmic Story with AstroAura</h2>\n"

/-- Template literal segment. -/
def fbE16j : String := "                <p>While general astrological insights provide valuable guidance for all, your personal birth chart holds the key to truly understanding how these cosmic influences affect your unique soul journey, relationships, career path, and spiritual evolution.</p>\n                \n"

/-- Template literal segment. -/
def fbE16k : String := "                <div class=\"astroaura-features-detailed\">\n                    <h3>üåü Discover Your Cosmic Blueprint</h3>\n                    <ul class=\"feature-list-enhanced\">\n"

/-- Template literal segment. -/
def fbE16l : String := "                        <li><strong>üéØ Personalized Daily Guidance:</strong> Receive insights tailored to your exact birth chart, current transits, and life themes, helping you navigate each day with cosmic awareness.</li>\n"

/-- Template literal segment. -/
def fbE16m : String := "                        <li><strong>üåç Multilingual Cosmic Wisdom:</strong> Access authentic astrological guidance in your preferred language, with cultural sensitivity and spiritual depth that honors diverse traditions.</li>\n"

/-- Template literal segment. -/
def fbE16n : String := "                        <li><strong>ü§ñ AI-Enhanced Cosmic Accuracy:</strong> Our advanced algorithms combine traditional astrological wisdom with modern data analysis to provide precise, relevant, and timely cosmic insights.</li>\n"

/-- Template literal segment. -/
def fbE16o : String := "                        <li><strong>üìä Real-Time Cosmic Weather:</strong> Track how today's planetary movements, lunar phases, and celestial events specifically influence your personal chart and life circumstances.</li>\n"

/-- Template literal segment. -/
def fbE16p : String := "                        <li><strong>üìö Interactive Cosmic Learning:</strong> Deepen your understanding of astrology through our educational features, cosmic glossary, and personalized learning pathways.</li>\n"

/-- Template literal segment. -/
def fbE16q : String := "                        <li><strong>üíù Community & Connection:</strong> Join a global community of cosmic seekers, share insights, and learn from diverse astrological perspectives and experiences.</li>\n                    </ul>\n                </div>\n            </section>\n            \n"

/-- Template literal segment. -/
def fbE16r : String := "            <section class=\"cosmic-conclusion\">\n                <h2>üåü Embracing Your Cosmic Journey with Confidence</h2>\n"

/-- Template literal segment. -/
def fbE16s : String := "                <p>Today's cosmic configuration reminds us that we are co-creators with the universe, able to work consciously with celestial energies to manifest our highest potential and live in alignment with our soul's purpose. Whether you're new to astrology or a seasoned cosmic navigator, thes"

/-- Template literal segment. -/
def fbE16t : String := "e insights offer guidance for living in harmony with universal rhythms while honoring your unique path.</p>\n                \n"

/-- Template literal segment. -/
def fbE16u : String := "                <p>Remember that astrology is not about prediction or limitation, but about empowerment, understanding, and conscious choice. The stars guide, but you decide. The planets influence, but you create. Your cosmic journey is uniquely yours, filled with infinite possibilities for growth, "

/-- Template literal segment. -/
def fbE16v : String := "love, and transformation.</p>\n                \n"

/-- Template literal segment. -/
def fbE16w : String := "                <p>Ready to dive deeper into your personal cosmic story and unlock the wisdom written in your stars? Download AstroAura today and join thousands of users worldwide who trust our multilingual, AI-enhanced astrological guidance to navigate life's journey with greater wisdom, clarity, a"

/-- Template literal segment. -/
def fbE16x : String := "nd cosmic consciousness.</p>\n            </section>\n        </div>\n        "

/-- fbE0 with its leading whitespace removed by `strip()`. -/
def fbE0h : String := "<div class=\"blog-content enhanced-fallback\">\n            <section class=\"cosmic-introduction\">\n                <h2>üåü Understanding "

/-- fbE16x with its trailing whitespace removed by `strip()`. -/
def fbE16xt : String := "nd cosmic consciousness.</p>\n            </section>\n        </div>"

/-- `_get_sign_themes`: zodiac theme dictionary of the authentic generator. -/
def get_sign_themes_table : List (String × String) :=
  [("Aries", "leadership, new beginnings, and courageous action"),
   ("Taurus", "stability, material security, and sensual pleasures"),
   ("Gemini", "communication, learning, and intellectual curiosity"),
   ("Cancer", "emotional security, home, and nurturing relationships"),
   ("Leo", "self-expression, creativity, and generous leadership"),
   ("Virgo", "service, health, and practical perfection"),
   ("Libra", "partnerships, beauty, and harmonious balance"),
   ("Scorpio", "transformation, depth, and emotional intensity"),
   ("Sagittarius", "expansion, philosophy, and adventurous spirit"),
   ("Capricorn", "ambition, structure, and long-term success"),
   ("Aquarius", "innovation, community, and humanitarian ideals"),
   ("Pisces", "spirituality, intuition, and compassionate service")]

/-- Dictionary lookup `themes.get(sign, default)`. -/
def get_sign_themes (sign : String) : String :=
  match get_sign_themes_table.lookup sign with
  | some t => t
  | none => "personal growth and self-discovery"

/-- `_get_enhanced_sign_themes`: zodiac theme dictionary of the free-API generator. -/
def get_enhanced_sign_themes_table : List (String × String) :=
  [("Aries", "pioneering leadership, courageous new beginnings, authentic self-expression, and dynamic personal transformation"),
   ("Taurus", "grounded stability, material abundance, sensual pleasure, and steady spiritual growth through earthly wisdom"),
   ("Gemini", "intellectual curiosity, versatile communication, social connections, and mental agility in learning and sharing knowledge"),
   ("Cancer", "emotional intuition, nurturing relationships, home and family harmony, and deep connection to lunar cycles and inner wisdom"),
   ("Leo", "creative self-expression, generous leadership, playful joy, and radiant confidence in sharing your unique gifts with the world"),
   ("Virgo", "practical service, holistic health, detailed perfection, and methodical approach to spiritual and material improvement"),
   ("Libra", "harmonious partnerships, aesthetic beauty, diplomatic balance, and creating peace and justice in relationships and society"),
   ("Scorpio", "transformative depth, emotional intensity, psychological healing, and fearless exploration of life's mysteries and hidden truths"),
   ("Sagittarius", "philosophical expansion, adventurous spirit, higher learning, and optimistic quest for meaning and spiritual truth"),
   ("Capricorn", "disciplined ambition, structural integrity, long-term planning, and responsible achievement of material and spiritual goals"),
   ("Aquarius", "innovative progress, humanitarian ideals, community collaboration, and revolutionary thinking that benefits collective consciousness"),
   ("Pisces", "compassionate spirituality, artistic intuition, emotional empathy, and mystical connection to universal consciousness and divine love")]

/-- Dictionary lookup `themes.get(sign, default)`. -/
def get_enhanced_sign_themes (sign : String) : String :=
  match get_enhanced_sign_themes_table.lookup sign with
  | some t => t
  | none => "personal growth, self-discovery, and spiritual evolution"

/-- `authentic_blog_generator.py _generate_fallback_content`: the template-filled HTML body, `content.strip()` applied as in the source. Long template literals are written as chunked concatenations. -/
def fallback_content (date sign phase season : String) (retro : Bool) : String :=
  pyStrip
    (fbA0 ++
     date ++
     fbA1 ++
     sign ++
     fbA2 ++
     phase ++
     fbA3a ++
     fbA3b ++
     fbA3c ++
     phase ++
     fbA4 ++
     phase ++
     fbA5 ++
     (if strContains phase "Waning" then "reflection and release" else "manifestation and new beginnings") ++
     fbA6 ++
     (if strContains phase "Waning" then "let go of what no longer serves" else "plant seeds for future growth") ++
     fbA7 ++
     sign ++
     fbA8 ++
     sign ++
     fbA9 ++
     (get_sign_themes sign) ++
     fbA10 ++
     sign ++
     fbA11 ++
     (if retro then "<div class='cosmic-factor'><h3>☿ Mercury Retrograde Alert</h3><p>We're currently in Mercury retrograde, making this an ideal time for reflection, revision, and reconnection. Avoid major communications and tech purchases, but embrace the opportunity for inner work.</p></div>" else "") ++
     fbA12a ++
     fbA12b ++
     phase ++
     fbA13 ++
     sign ++
     fbA14a ++
     fbA14b ++
     season ++
     fbA15a ++
     fbA15b ++
     fbA15c ++
     fbA15d ++
     fbA15e ++
     fbA15f ++
     fbA15g ++
     fbA15h ++
     fbA15i ++
     fbA15j ++
     fbA15k ++
     fbA15l ++
     fbA15m ++
     fbA15n ++
     fbA15o)

/-- `free_api_content_generator.py _generate_enhanced_fallback_content`: the template-filled HTML body, `content.strip()` applied as in the source. -/
def enhanced_fallback_content (topic date sign phase season : String) (retro : Bool) : String :=
  pyStrip
    (fbE0 ++
     topic ++
     fbE1 ++
     date ++
     fbE2 ++
     sign ++
     fbE3 ++
     phase ++
     fbE4a ++
     fbE4b ++
     fbE4c ++
     phase ++
     fbE5 ++
     phase ++
     fbE6 ++
     (if strContains phase "Waning" then "reflection, release, and inner wisdom" else "manifestation, new beginnings, and setting intentions") ++
     fbE7 ++
     (if strContains phase "Waning" then "let go of limiting beliefs and patterns" else "plant seeds for future growth and embrace new possibilities") ++
     fbE8 ++
     sign ++
     fbE9 ++
     sign ++
     fbE10 ++
     (get_enhanced_sign_themes sign) ++
     fbE11 ++
     sign ++
     fbE12 ++
     (if retro then "<div class='cosmic-factor mercury-rx'><h3>‚òø Mercury Retrograde Wisdom</h3><p>We're currently experiencing Mercury retrograde, offering a sacred opportunity for reflection, revision, and reconnection with our inner truth. Embrace this time for deep contemplation, healing old communication patterns, and rediscovering forgotten wisdom.</p></div>" else "<div class='cosmic-factor'><h3>‚òø Mercury Direct Flow</h3><p>With Mercury moving direct, communication flows clearly and technology supports our intentions. This is an excellent time for important conversations, launching new projects, and connecting with others authentically.</p></div>") ++
     fbE13a ++
     fbE13b ++
     fbE13c ++
     phase ++
     fbE14 ++
     sign ++
     fbE15a ++
     fbE15b ++
     season ++
     fbE16a ++
     fbE16b ++
     fbE16c ++
     fbE16d ++
     fbE16e ++
     fbE16f ++
     fbE16g ++
     fbE16h ++
     fbE16i ++
     fbE16j ++
     fbE16k ++
     fbE16l ++
     fbE16m ++
     fbE16n ++
     fbE16o ++
     fbE16p ++
     fbE16q ++
     fbE16r ++
     fbE16s ++
     fbE16t ++
     fbE16u ++
     fbE16v ++
     fbE16w ++
     fbE16x)

/-- Normal form of the authentic fallback body: `strip()` trims exactly the template border whitespace. -/
lemma fallback_content_data (date sign phase season : String) (retro : Bool) :
    (fallback_content date sign phase season retro).data
      = fbA0h.data ++
        date.data ++
        fbA1.data ++
        sign.data ++
        fbA2.data ++
        phase.data ++
        fbA3a.data ++
        fbA3b.data ++
        fbA3c.data ++
        phase.data ++
        fbA4.data ++
        phase.data ++
        fbA5.data ++
        (if strContains phase "Waning" then "reflection and release" else "manifestation and new beginnings").data ++
        fbA6.data ++
        (if strContains phase "Waning" then "let go of what no longer serves" else "plant seeds for future growth").data ++
        fbA7.data ++
        sign.data ++
        fbA8.data ++
        sign.data ++
        fbA9.data ++
        (get_sign_themes sign).data ++
        fbA10.data ++
        sign.data ++
        fbA11.data ++
        (if retro then "<div class='cosmic-factor'><h3>☿ Mercury Retrograde Alert</h3><p>We're currently in Mercury retrograde, making this an ideal time for reflection, revision, and reconnection. Avoid major communications and tech purchases, but embrace the opportunity for inner work.</p></div>" else "").data ++
        fbA12a.data ++
        fbA12b.data ++
        phase.data ++
        fbA13.data ++
        sign.data ++
        fbA14a.data ++
        fbA14b.data ++
        season.data ++
        fbA15a.data ++
        fbA15b.data ++
        fbA15c.data ++
        fbA15d.data ++
        fbA15e.data ++
        fbA15f.data ++
        fbA15g.data ++
        fbA15h.data ++
        fbA15i.data ++
        fbA15j.data ++
        fbA15k.data ++
        fbA15l.data ++
        fbA15m.data ++
        fbA15n.data ++
        fbA15ot.data := by
  have h := pyStrip_append_append fbA0
    (date ++
         fbA1 ++
         sign ++
         fbA2 ++
         phase ++
         fbA3a ++
         fbA3b ++
         fbA3c ++
         phase ++
         fbA4 ++
         phase ++
         fbA5 ++
         (if strContains phase "Waning" then "reflection and release" else "manifestation and new beginnings") ++
         fbA6 ++
         (if strContains phase "Waning" then "let go of what no longer serves" else "plant seeds for future growth") ++
         fbA7 ++
         sign ++
         fbA8 ++
         sign ++
         fbA9 ++
         (get_sign_themes sign) ++
         fbA10 ++
         sign ++
         fbA11 ++
         (if retro then "<div class='cosmic-factor'><h3>☿ Mercury Retrograde Alert</h3><p>We're currently in Mercury retrograde, making this an ideal time for reflection, revision, and reconnection. Avoid major communications and tech purchases, but embrace the opportunity for inner work.</p></div>" else "") ++
         fbA12a ++
         fbA12b ++
         phase ++
         fbA13 ++
         sign ++
         fbA14a ++
         fbA14b ++
         season ++
         fbA15a ++
         fbA15b ++
         fbA15c ++
         fbA15d ++
         fbA15e ++
         fbA15f ++
         fbA15g ++
         fbA15h ++
         fbA15i ++
         fbA15j ++
         fbA15k ++
         fbA15l ++
         fbA15m ++
         fbA15n)
    fbA15o (by decide) (by decide)
  unfold fallback_content
  rw [show (fbA0 ++
           date ++
           fbA1 ++
           sign ++
           fbA2 ++
           phase ++
           fbA3a ++
           fbA3b ++
           fbA3c ++
           phase ++
           fbA4 ++
           phase ++
           fbA5 ++
           (if strContains phase "Waning" then "reflection and release" else "manifestation and new beginnings") ++
           fbA6 ++
           (if strContains phase "Waning" then "let go of what no longer serves" else "plant seeds for future growth") ++
           fbA7 ++
           sign ++
           fbA8 ++
           sign ++
           fbA9 ++
           (get_sign_themes sign) ++
           fbA10 ++
           sign ++
           fbA11 ++
           (if retro then "<div class='cosmic-factor'><h3>☿ Mercury Retrograde Alert</h3><p>We're currently in Mercury retrograde, making this an ideal time for reflection, revision, and reconnection. Avoid major communications and tech purchases, but embrace the opportunity for inner work.</p></div>" else "") ++
           fbA12a ++
           fbA12b ++
           phase ++
           fbA13 ++
           sign ++
           fbA14a ++
           fbA14b ++
           season ++
           fbA15a ++
           fbA15b ++
           fbA15c ++
           fbA15d ++
           fbA15e ++
           fbA15f ++
           fbA15g ++
           fbA15h ++
           fbA15i ++
           fbA15j ++
           fbA15k ++
           fbA15l ++
           fbA15m ++
           fbA15n ++
           fbA15o : String)
      = fbA0 ++ ((date ++
             fbA1 ++
             sign ++
             fbA2 ++
             phase ++
             fbA3a ++
             fbA3b ++
             fbA3c ++
             phase ++
             fbA4 ++
             phase ++
             fbA5 ++
             (if strContains phase "Waning" then "reflection and release" else "manifestation and new beginnings") ++
             fbA6 ++
             (if strContains phase "Waning" then "let go of what no longer serves" else "plant seeds for future growth") ++
             fbA7 ++
             sign ++
             fbA8 ++
             sign ++
             fbA9 ++
             (get_sign_themes sign) ++
             fbA10 ++
             sign ++
             fbA11 ++
             (if retro then "<div class='cosmic-factor'><h3>☿ Mercury Retrograde Alert</h3><p>We're currently in Mercury retrograde, making this an ideal time for reflection, revision, and reconnection. Avoid major communications and tech purchases, but embrace the opportunity for inner work.</p></div>" else "") ++
             fbA12a ++
             fbA12b ++
             phase ++
             fbA13 ++
             sign ++
             fbA14a ++
             fbA14b ++
             season ++
             fbA15a ++
             fbA15b ++
             fbA15c ++
             fbA15d ++
             fbA15e ++
             fbA15f ++
             fbA15g ++
             fbA15h ++
             fbA15i ++
             fbA15j ++
             fbA15k ++
             fbA15l ++
             fbA15m ++
             fbA15n) ++ fbA15o) by
    simp [String.append_assoc], h]
  rw [show fbA0.data.dropWhile pySpace = fbA0h.data by decide]
  rw [show fbA15o.data.rdropWhile pySpace = fbA15ot.data by decide]
  simp [String.data_append, List.append_assoc]

/-- Normal form of the free-API fallback body. -/
lemma enhanced_fallback_content_data (topic date sign phase season : String) (retro : Bool) :
    (enhanced_fallback_content topic date sign phase season retro).data
      = fbE0h.data ++
        topic.data ++
        fbE1.data ++
        date.data ++
        fbE2.data ++
        sign.data ++
        fbE3.data ++
        phase.data ++
        fbE4a.data ++
        fbE4b.data ++
        fbE4c.data ++
        phase.data ++
        fbE5.data ++
        phase.data ++
        fbE6.data ++
        (if strContains phase "Waning" then "reflection, release, and inner wisdom" else "manifestation, new beginnings, and setting intentions").data ++
        fbE7.data ++
        (if strContains phase "Waning" then "let go of limiting beliefs and patterns" else "plant seeds for future growth and embrace new possibilities").data ++
        fbE8.data ++
        sign.data ++
        fbE9.data ++
        sign.data ++
        fbE10.data ++
        (get_enhanced_sign_themes sign).data ++
        fbE11.data ++
        sign.data ++
        fbE12.data ++
        (if retro then "<div class='cosmic-factor mercury-rx'><h3>‚òø Mercury Retrograde Wisdom</h3><p>We're currently experiencing Mercury retrograde, offering a sacred opportunity for reflection, revision, and reconnection with our inner truth. Embrace this time for deep contemplation, healing old communication patterns, and rediscovering forgotten wisdom.</p></div>" else "<div class='cosmic-factor'><h3>‚òø Mercury Direct Flow</h3><p>With Mercury moving direct, communication flows clearly and technology supports our intentions. This is an excellent time for important conversations, launching new projects, and connecting with others authentically.</p></div>").data ++
        fbE13a.data ++
        fbE13b.data ++
        fbE13c.data ++
        phase.data ++
        fbE14.data ++
        sign.data ++
        fbE15a.data ++
        fbE15b.data ++
        season.data ++
        fbE16a.data ++
        fbE16b.data ++
        fbE16c.data ++
        fbE16d.data ++
        fbE16e.data ++
        fbE16f.data ++
        fbE16g.data ++
        fbE16h.data ++
        fbE16i.data ++
        fbE16j.data ++
        fbE16k.data ++
        fbE16l.data ++
        fbE16m.data ++
        fbE16n.data ++
        fbE16o.data ++
        fbE16p.data ++
        fbE16q.data ++
        fbE16r.data ++
        fbE16s.data ++
        fbE16t.data ++
        fbE16u.data ++
        fbE16v.data ++
        fbE16w.data ++
        fbE16xt.data := by
  have h := pyStrip_append_append fbE0
    (topic ++
         fbE1 ++
         date ++
         fbE2 ++
         sign ++
         fbE3 ++
         phase ++
         fbE4a ++
         fbE4b ++
         fbE4c ++
         phase ++
         fbE5 ++
         phase ++
         fbE6 ++
         (if strContains phase "Waning" then "reflection, release, and inner wisdom" else "manifestation, new beginnings, and setting intentions") ++
         fbE7 ++
         (if strContains phase "Waning" then "let go of limiting beliefs and patterns" else "plant seeds for future growth and embrace new possibilities") ++
         fbE8 ++
         sign ++
         fbE9 ++
         sign ++
         fbE10 ++
         (get_enhanced_sign_themes sign) ++
         fbE11 ++
         sign ++
         fbE12 ++
         (if retro then "<div class='cosmic-factor mercury-rx'><h3>‚òø Mercury Retrograde Wisdom</h3><p>We're currently experiencing Mercury retrograde, offering a sacred opportunity for reflection, revision, and reconnection with our inner truth. Embrace this time for deep contemplation, healing old communication patterns, and rediscovering forgotten wisdom.</p></div>" else "<div class='cosmic-factor'><h3>‚òø Mercury Direct Flow</h3><p>With Mercury moving direct, communication flows clearly and technology supports our intentions. This is an excellent time for important conversations, launching new projects, and connecting with others authentically.</p></div>") ++
         fbE13a ++
         fbE13b ++
         fbE13c ++
         phase ++
         fbE14 ++
         sign ++
         fbE15a ++
         fbE15b ++
         season ++
         fbE16a ++
         fbE16b ++
         fbE16c ++
         fbE16d ++
         fbE16e ++
         fbE16f ++
         fbE16g ++
         fbE16h ++
         fbE16i ++
         fbE16j ++
         fbE16k ++
         fbE16l ++
         fbE16m ++
         fbE16n ++
         fbE16o ++
         fbE16p ++
         fbE16q ++
         fbE16r ++
         fbE16s ++
         fbE16t ++
         fbE16u ++
         fbE16v ++
         fbE16w)
    fbE16x (by decide) (by decide)
  unfold enhanced_fallback_content
  rw [show (fbE0 ++
           topic ++
           fbE1 ++
           date ++
           fbE2 ++
           sign ++
           fbE3 ++
           phase ++
           fbE4a ++
           fbE4b ++
           fbE4c ++
           phase ++
           fbE5 ++
           phase ++
           fbE6 ++
           (if strContains phase "Waning" then "reflection, release, and inner wisdom" else "manifestation, new beginnings, and setting intentions") ++
           fbE7 ++
           (if strContains phase "Waning" then "let go of limiting beliefs and patterns" else "plant seeds for future growth and embrace new possibilities") ++
           fbE8 ++
           sign ++
           fbE9 ++
           sign ++
           fbE10 ++
           (get_enhanced_sign_themes sign) ++
           fbE11 ++
           sign ++
           fbE12 ++
           (if retro then "<div class='cosmic-factor mercury-rx'><h3>‚òø Mercury Retrograde Wisdom</h3><p>We're currently experiencing Mercury retrograde, offering a sacred opportunity for reflection, revision, and reconnection with our inner truth. Embrace this time for deep contemplation, healing old communication patterns, and rediscovering forgotten wisdom.</p></div>" else "<div class='cosmic-factor'><h3>‚òø Mercury Direct Flow</h3><p>With Mercury moving direct, communication flows clearly and technology supports our intentions. This is an excellent time for important conversations, launching new projects, and connecting with others authentically.</p></div>") ++
           fbE13a ++
           fbE13b ++
           fbE13c ++
           phase ++
           fbE14 ++
           sign ++
           fbE15a ++
           fbE15b ++
           season ++
           fbE16a ++
           fbE16b ++
           fbE16c ++
           fbE16d ++
           fbE16e ++
           fbE16f ++
           fbE16g ++
           fbE16h ++
           fbE16i ++
           fbE16j ++
           fbE16k ++
           fbE16l ++
           fbE16m ++
           fbE16n ++
           fbE16o ++
           fbE16p ++
           fbE16q ++
           fbE16r ++
           fbE16s ++
           fbE16t ++
           fbE16u ++
           fbE16v ++
           fbE16w ++
           fbE16x : String)
      = fbE0 ++ ((topic ++
             fbE1 ++
             date ++
             fbE2 ++
             sign ++
             fbE3 ++
             phase ++
             fbE4a ++
             fbE4b ++
             fbE4c ++
             phase ++
             fbE5 ++
             phase ++
             fbE6 ++
             (if strContains phase "Waning" then "reflection, release, and inner wisdom" else "manifestation, new beginnings, and setting intentions") ++
             fbE7 ++
             (if strContains phase "Waning" then "let go of limiting beliefs and patterns" else "plant seeds for future growth and embrace new possibilities") ++
             fbE8 ++
             sign ++
             fbE9 ++
             sign ++
             fbE10 ++
             (get_enhanced_sign_themes sign) ++
             fbE11 ++
             sign ++
             fbE12 ++
             (if retro then "<div class='cosmic-factor mercury-rx'><h3>‚òø Mercury Retrograde Wisdom</h3><p>We're currently experiencing Mercury retrograde, offering a sacred opportunity for reflection, revision, and reconnection with our inner truth. Embrace this time for deep contemplation, healing old communication patterns, and rediscovering forgotten wisdom.</p></div>" else "<div class='cosmic-factor'><h3>‚òø Mercury Direct Flow</h3><p>With Mercury moving direct, communication flows clearly and technology supports our intentions. This is an excellent time for important conversations, launching new projects, and connecting with others authentically.</p></div>") ++
             fbE13a ++
             fbE13b ++
             fbE13c ++
             phase ++
             fbE14 ++
             sign ++
             fbE15a ++
             fbE15b ++
             season ++
             fbE16a ++
             fbE16b ++
             fbE16c ++
             fbE16d ++
             fbE16e ++
             fbE16f ++
             fbE16g ++
             fbE16h ++
             fbE16i ++
             fbE16j ++
             fbE16k ++
             fbE16l ++
             fbE16m ++
             fbE16n ++
             fbE16o ++
             fbE16p ++
             fbE16q ++
             fbE16r ++
             fbE16s ++
             fbE16t ++
             fbE16u ++
             fbE16v ++
             fbE16w) ++ fbE16x) by
    simp [String.append_assoc], h]
  rw [show fbE0.data.dropWhile pySpace = fbE0h.data by decide]
  rw [show fbE16x.data.rdropWhile pySpace = fbE16xt.data by decide]
  simp [String.data_append, List.append_assoc]

/-- The authentic generator's fallback meta description (an f-string with no
truncation). -/
def fallback_meta (date phase sign : String) : String :=
  "Authentic astrological guidance for " ++ date ++ ". Explore today's " ++
    phase ++ " energy in " ++ sign ++
    " season with personalized insights from AstroAura's AI-powered astrology platform."

/-- The free-API generator's fallback meta description (an f-string with no
truncation; the topic is lowercased). -/
def enhanced_fallback_meta (topic date phase sign : String) : String :=
  "Explore " ++ pyLower topic ++ " with authentic astrological guidance for " ++
    date ++ ". Discover today's " ++ phase ++ " energy in " ++ sign ++
    " season with AstroAura's personalized cosmic insights and practical spiritual wisdom."

set_option linter.unusedVariables false in
/-- `free_api_content_generator.py _generate_meta_description` (used on the
AI-success path; its `topic` parameter is unused in the source body too):
first two sentences, AstroAura mention appended when missing, truncated to
`[:152] + "..."` when longer than 155. -/
def generate_meta_description (content topic : String) : String :=
  let base := pyStrip
    (String.intercalate ". " (((content.replace "\n" " ").splitOn ".").take 2))
  let description :=
    if strContains (pyLower base) "astroaura" then base
    else base ++ " Get personalized insights with AstroAura's AI-powered astrology app."
  if 155 < description.length then String.mk (description.data.take 152) ++ "..."
  else description

/-- The record returned by `_generate_fallback_content`. -/
structure GeneratedPost where
  title : String
  content : String
  meta_description : String
  ai_generated : Bool
  model_used : String
deriving DecidableEq

/-- `_generate_fallback_content`'s returned dict (the title substitutes the
`\x7bsign\x7d`/`\x7bphase\x7d` placeholders of the topic). -/
def generate_fallback_content (topic date sign phase season : String)
    (retro : Bool) : GeneratedPost :=
  { title := ((topic.replace "\x7bsign\x7d" sign).replace "\x7bphase\x7d" phase)
      ++ " - " ++ date
    content := fallback_content date sign phase season retro
    meta_description := fallback_meta date phase sign
    ai_generated := false
    model_used := "fallback" }

/-- `_generate_enhanced_fallback_content`'s returned dict (its last field is
keyed `api_used` in the source). -/
def generate_enhanced_fallback_content (topic date sign phase season : String)
    (retro : Bool) : GeneratedPost :=
  { title := topic ++ " - Cosmic Guidance for " ++ date
    content := enhanced_fallback_content topic date sign phase season retro
    meta_description := enhanced_fallback_meta topic date phase sign
    ai_generated := false
    model_used := "Enhanced Fallback System" }

lemma mk_length (l : List Char) : (String.mk l).length = l.length := rfl

lemma pyLower_length (s : String) : (pyLower s).length = s.length := by
  show (s.data.map Char.toLower).length = s.data.length
  exact List.length_map _ _

lemma fallback_meta_length (date phase sign : String) :
    (fallback_meta date phase sign).length
      = 147 + date.length + phase.length + sign.length := by
  have e1 : ("Authentic astrological guidance for " : String).length = 36 := rfl
  have e2 : (". Explore today's " : String).length = 18 := rfl
  have e3 : (" energy in " : String).length = 11 := rfl
  have e4 : (" season with personalized insights from AstroAura's AI-powered astrology platform." : String).length = 82 := by decide
  simp [fallback_meta, String.length_append, e1, e2, e3, e4]
  omega

lemma enhanced_fallback_meta_length (topic date phase sign : String) :
    (enhanced_fallback_meta topic date phase sign).length
      = 165 + topic.length + date.length + phase.length + sign.length := by
  have e1 : ("Explore " : String).length = 8 := rfl
  have e2 : (" with authentic astrological guidance for " : String).length = 42 := rfl
  have e3 : (". Discover today's " : String).length = 19 := rfl
  have e4 : (" energy in " : String).length = 11 := rfl
  have e5 : (" season with AstroAura's personalized cosmic insights and practical spiritual wisdom." : String).length = 85 := by decide
  simp [enhanced_fallback_meta, String.length_append, pyLower_length,
    e1, e2, e3, e4, e5]
  omega

lemma truncate_le_155 (d : String) :
    (if 155 < d.length then String.mk (d.data.take 152) ++ "..." else d).length
      ≤ 155 := by
  by_cases h : 155 < d.length
  · have ht : (d.data.take 152).length ≤ 152 := List.length_take_le _ _
    have e : ("..." : String).length = 3 := rfl
    simp only [h, if_true, String.length_append, mk_length, e]
    omega
  · simpa [h] using Nat.le_of_not_lt h

lemma generate_meta_description_le (c t : String) :
    (generate_meta_description c t).length ≤ 155 :=
  truncate_le_155 _

/-- C8 (amended): when every content-generation provider fails, both fallback
renderers still return a non-empty HTML body that contains the
"Current Cosmic Weather Report" subsection, with the Mercury-retrograde
block included when the flag is set (the free-API renderer inserts a
Mercury-direct block otherwise) — but the fallback meta descriptions are
plain template strings that are NEVER truncated: the free-API fallback meta
is 165 characters of fixed text plus the topic/date/phase/sign, so it always
exceeds 155, and the authentic fallback meta is 147 fixed characters plus
date/phase/sign (over 155 for every real strftime date and phase/sign name);
only the AI-success path's `_generate_meta_description` enforces the ≤ 155
bound. -/
theorem fallback_guarantee (topic date sign phase season : String)
    (retro : Bool) :
    (fallback_content date sign phase season retro).data ≠ [] ∧
    "Current Cosmic Weather Report".data <:+:
      (fallback_content date sign phase season retro).data ∧
    "Mercury Retrograde Alert".data <:+:
      (fallback_content date sign phase season true).data ∧
    (enhanced_fallback_content topic date sign phase season retro).data ≠ [] ∧
    "Current Cosmic Weather Report".data <:+:
      (enhanced_fallback_content topic date sign phase season retro).data ∧
    "Mercury Retrograde Wisdom".data <:+:
      (enhanced_fallback_content topic date sign phase season true).data ∧
    "Mercury Direct Flow".data <:+:
      (enhanced_fallback_content topic date sign phase season false).data ∧
    (fallback_meta date phase sign).length
      = 147 + date.length + phase.length + sign.length ∧
    155 < (enhanced_fallback_meta topic date phase sign).length ∧
    (∀ c t : String, (generate_meta_description c t).length ≤ 155) := by
  refine ⟨?_, ?_, ?_, ?_, ?_, ?_, ?_, fallback_meta_length date phase sign,
    ?_, fun c t => generate_meta_description_le c t⟩
  · rw [fallback_content_data]
    exact List.append_ne_nil_of_right_ne_nil _ (by decide)
  · rw [fallback_content_data]
    iterate 40 apply isInfix_append_right
    apply isInfix_append_left
    decide
  · rw [fallback_content_data]
    simp only [eq_self_iff_true, if_true]
    iterate 23 apply isInfix_append_right
    apply isInfix_append_left
    decide
  · rw [enhanced_fallback_content_data]
    exact List.append_ne_nil_of_right_ne_nil _ (by decide)
  · rw [enhanced_fallback_content_data]
    iterate 50 apply isInfix_append_right
    apply isInfix_append_left
    decide
  · rw [enhanced_fallback_content_data]
    simp only [eq_self_iff_true, if_true]
    iterate 33 apply isInfix_append_right
    apply isInfix_append_left
    decide
  · rw [enhanced_fallback_content_data]
    simp only [Bool.false_eq_true, if_false]
    iterate 33 apply isInfix_append_right
    apply isInfix_append_left
    decide
  · rw [enhanced_fallback_meta_length]
    omega

/-- C8 counterexample: in the exact all-providers-fail scenario of the claim
(topic "Mindfulness and Mental Health", a real date, Full Moon in Leo), the
free-API fallback meta description is 221 characters and the authentic one is
174 — both exceed the claimed 155-character bound. -/
theorem fallback_meta_exceeds_155 :
    (enhanced_fallback_meta "Mindfulness and Mental Health" "August 15, 2025"
        "Full Moon" "Leo").length = 221 ∧
    ¬ (enhanced_fallback_meta "Mindfulness and Mental Health" "August 15, 2025"
        "Full Moon" "Leo").length ≤ 155 ∧
    (fallback_meta "August 15, 2025" "Full Moon" "Leo").length = 174 ∧
    ¬ (fallback_meta "August 15, 2025" "Full Moon" "Leo").length ≤ 155 := by
  refine ⟨by decide, by decide, by decide, by decide⟩

end AstroAura
